import Mathlib

/- A shallow embedding of the newsletter service core: the validated domain
types, the subscription workflow, the confirmation workflow and the
authenticated broadcast workflow, together with proofs about them.

External collaborators are abstracted as explicit function parameters:
`g` stands for the grapheme-cluster counter of the unicode-segmentation
crate, `validEmail` for the email grammar of the validator crate,
`phcOk`/`ver` for PHC-string parsing and argon2 verification, and `send`
for the outbound email transport.  Strings that the code inspects
character by character are modelled as `List Char`. -/

namespace Newsletter

/- ------------------------------------------------------------------ -/
/- Validated domain types (src/domain/subscriber_name.rs,
   src/domain/subscriber_email.rs)                                     -/
/- ------------------------------------------------------------------ -/

/-- The forbidden characters of `subscriber_name.rs`:
`/ ( ) " < > \ { }` (the last four written via their code points). -/
def FORBIDDEN_CHARACTERS : List Char :=
  ['/', '(', ')', Char.ofNat 34, '<', '>', Char.ofNat 92, Char.ofNat 123,
   Char.ofNat 125]

/-- Mirror of `SubscriberName::is_valid_to_maybe_err`. -/
def is_valid_to_maybe_err (is_valid : Bool) (error_msg : String) :
    Option String :=
  if is_valid then none else some error_msg

/-- Rust `str::trim_start`: drop leading whitespace. -/
def trimStart (l : List Char) : List Char := l.dropWhile Char.isWhitespace

/-- Rust `str::trim`: drop leading and trailing whitespace. -/
def trim (l : List Char) : List Char :=
  ((trimStart l).reverse.dropWhile Char.isWhitespace).reverse

/-- The check `s.chars().any(|c| FORBIDDEN_CHARACTERS.contains(&c))` of
`SubscriberName::parse`, named so proofs can treat it atomically. -/
def containsForbidden (s : List Char) : Bool :=
  s.any (fun c => FORBIDDEN_CHARACTERS.contains c)

/-- Mirror of `SubscriberName::parse`.  The three checks are laid out in a
list of (validity, message) pairs and the error list is the
`filterMap` of the invalid ones, exactly as in the source.  `g` abstracts
`s.graphemes(true).count()`. -/
def SubscriberName.parse (g : List Char → Nat) (s : List Char) :
    Except (List String) (List Char) :=
  let errors :=
    ([(!(trim s).isEmpty, "name cannot be empty!"),
      (decide (g s ≤ 256), "name cannot be more than 256 characters!"),
      (!containsForbidden s, "name cannot contain special characters!")] :
        List (Bool × String)).filterMap
      (fun p => is_valid_to_maybe_err p.1 p.2)
  if errors.isEmpty then .ok s else .error errors

/-- Mirror of `SubscriberEmail::parse`, with the grammar check abstracted
as `validEmail`. -/
def SubscriberEmail.parse (validEmail : String → Bool) (s : String) :
    Except String String :=
  if validEmail s then .ok s else .error (s ++ " is not a valid subscriber email")

/- ------------------------------------------------------------------ -/
/- Helper lemmas about trimming                                        -/
/- ------------------------------------------------------------------ -/

theorem mem_dropWhile_of_neg {p : Char → Bool} {l : List Char} {x : Char}
    (hx : x ∈ l) (hpx : p x = false) : x ∈ l.dropWhile p := by
  induction l with
  | nil => cases hx
  | cons a t ih =>
    rw [List.dropWhile_cons]
    rcases List.mem_cons.mp hx with h | h
    · subst h
      rw [hpx]
      exact List.mem_cons_self x t
    · cases hpa : p a with
      | false => simp only [Bool.false_eq_true, if_neg]; exact List.mem_cons_of_mem a h
      | true => simp only [if_pos]; exact ih h

theorem trim_ne_nil {l : List Char} {x : Char} (hx : x ∈ l)
    (hpx : x.isWhitespace = false) : trim l ≠ [] := by
  have h1 : x ∈ trimStart l := mem_dropWhile_of_neg hx hpx
  have h2 : x ∈ (trimStart l).reverse := List.mem_reverse.mpr h1
  have h3 : x ∈ (trimStart l).reverse.dropWhile Char.isWhitespace :=
    mem_dropWhile_of_neg h2 hpx
  have h4 : x ∈ trim l := List.mem_reverse.mpr h3
  exact List.ne_nil_of_mem h4

theorem forbidden_not_whitespace :
    ∀ c ∈ FORBIDDEN_CHARACTERS, c.isWhitespace = false := by decide

/-- C5: `SubscriberName::parse` runs all three checks regardless of earlier
failures and reports the full list of violated rules: a message is in the
error list exactly when the corresponding rule is violated, and a name that
is both longer than 256 graphemes and contains a forbidden character yields
exactly the two corresponding violations. -/
theorem subscriber_name_parse_accumulates (g : List Char → Nat) (s : List Char) :
    (∀ es, SubscriberName.parse g s = .error es →
      (("name cannot be empty!" ∈ es ↔ (trim s).isEmpty = true) ∧
       ("name cannot be more than 256 characters!" ∈ es ↔ 256 < g s) ∧
       ("name cannot contain special characters!" ∈ es ↔
         containsForbidden s = true))) ∧
    (∀ c, c ∈ s → c ∈ FORBIDDEN_CHARACTERS → 256 < g s →
      SubscriberName.parse g s =
        .error ["name cannot be more than 256 characters!",
                "name cannot contain special characters!"]) := by
  constructor
  · intro es h
    by_cases h2 : g s ≤ 256 <;>
      cases h1 : (trim s).isEmpty <;>
        cases h3 : containsForbidden s <;>
          simp [SubscriberName.parse, is_valid_to_maybe_err, h1, h2, h3] at h
    all_goals subst h
    all_goals refine ⟨by decide, ?_, by decide⟩
    all_goals constructor <;> intro hx <;>
      first
        | omega
        | decide
        | exact absurd hx (by decide)
  · intro c hc hforb hlt
    have hne : trim s ≠ [] :=
      trim_ne_nil hc (forbidden_not_whitespace c hforb)
    have h1 : (trim s).isEmpty = false := by
      cases htrim : trim s with
      | nil => exact absurd htrim hne
      | cons a t => rfl
    have h2 : ¬ g s ≤ 256 := Nat.not_le.mpr hlt
    have h3 : containsForbidden s = true := by
      rw [containsForbidden, List.any_eq_true]
      exact ⟨c, hc, by simpa using hforb⟩
    simp [SubscriberName.parse, is_valid_to_maybe_err, h1, h2, h3]

/-- Witness for the C5 theorem: a name of 257 slashes violates both the
length rule and the forbidden-character rule, and `parse` reports exactly
those two violations. -/
theorem subscriber_name_parse_accumulates_witness :
    SubscriberName.parse List.length (List.replicate 257 '/') =
      .error ["name cannot be more than 256 characters!",
              "name cannot contain special characters!"] ∧
    ("name cannot be more than 256 characters!" ∈
      (["name cannot be more than 256 characters!",
        "name cannot contain special characters!"] : List String) ↔
      256 < List.length (List.replicate 257 '/')) := by
  have h := subscriber_name_parse_accumulates List.length (List.replicate 257 '/')
  have hmem : ('/' : Char) ∈ List.replicate 257 '/' :=
    List.mem_replicate.mpr ⟨by decide, rfl⟩
  have hlen : 256 < (List.replicate 257 '/').length := by
    rw [List.length_replicate]
    omega
  have h2 := h.2 '/' hmem (by decide) hlen
  exact ⟨h2, (h.1 _ h2).2.1⟩

/- ------------------------------------------------------------------ -/
/- NewSubscriber (TryFrom<SubscribeFormData> in src/routes/subscriptions.rs) -/
/- ------------------------------------------------------------------ -/

/-- Mirror of `TryFrom<SubscribeFormData> for NewSubscriber`: both parses
run, email violations are wrapped in a one-element list, the four cases of
the match merge the violations (`name_es.append(&mut email_es)` being list
concatenation), and the final error is the `", "`-join. -/
def NewSubscriber.try_from (g : List Char → Nat) (validEmail : String → Bool)
    (name : List Char) (email : String) :
    Except String (List Char × String) :=
  let n := SubscriberName.parse g name
  let e := Except.mapError (fun er => [er]) (SubscriberEmail.parse validEmail email)
  Except.mapError (fun es => String.intercalate ", " es)
    (match n, e with
     | .ok n, .ok e => .ok (n, e)
     | .error es, .ok _ => .error es
     | .ok _, .error es => .error es
     | .error name_es, .error email_es => .error (name_es ++ email_es))

/-- C6: `try_from` succeeds exactly when both parses individually succeed,
and when both fail the error is the join of the name violations followed
by the email violation — the combined message carries both sets. -/
theorem new_subscriber_merges_violations (g : List Char → Nat)
    (validEmail : String → Bool) (name : List Char) (email : String) :
    (∀ n, SubscriberName.parse g name = .ok n →
      ∀ e, SubscriberEmail.parse validEmail email = .ok e →
        NewSubscriber.try_from g validEmail name email = .ok (n, e)) ∧
    (∀ r, NewSubscriber.try_from g validEmail name email = .ok r →
      (∃ n, SubscriberName.parse g name = .ok n) ∧
      (∃ e, SubscriberEmail.parse validEmail email = .ok e)) ∧
    (∀ nes ee, SubscriberName.parse g name = .error nes →
      SubscriberEmail.parse validEmail email = .error ee →
      NewSubscriber.try_from g validEmail name email =
        .error (String.intercalate ", " (nes ++ [ee]))) := by
  refine ⟨?_, ?_, ?_⟩
  · intro n hn e he
    simp [NewSubscriber.try_from, hn, he, Except.mapError]
  · intro r hr
    cases hn : SubscriberName.parse g name with
    | error es =>
      cases he : SubscriberEmail.parse validEmail email <;>
        simp [NewSubscriber.try_from, hn, he, Except.mapError] at hr
    | ok n =>
      cases he : SubscriberEmail.parse validEmail email with
      | error ee =>
        simp [NewSubscriber.try_from, hn, he, Except.mapError] at hr
      | ok e => exact ⟨⟨n, rfl⟩, ⟨e, rfl⟩⟩
  · intro nes ee hn he
    simp [NewSubscriber.try_from, hn, he, Except.mapError]

/-- Witness for the C6 theorem: an empty name with a rejected email yields
the joined two-field message, and a valid pair parses. -/
theorem new_subscriber_merges_violations_witness :
    NewSubscriber.try_from List.length (fun _ => false) [] "foo" =
      .error "name cannot be empty!, foo is not a valid subscriber email" ∧
    NewSubscriber.try_from List.length (fun _ => true) ['a'] "a@b" =
      .ok (['a'], "a@b") := by
  constructor
  · exact (new_subscriber_merges_violations List.length (fun _ => false)
      [] "foo").2.2 ["name cannot be empty!"]
      "foo is not a valid subscriber email" rfl rfl
  · exact (new_subscriber_merges_violations List.length (fun _ => true)
      ['a'] "a@b").1 ['a'] rfl "a@b" rfl

/- ------------------------------------------------------------------ -/
/- Basic authentication (src/routes/newsletters.rs)                    -/
/- ------------------------------------------------------------------ -/

structure Credentials where
  username : String
  password : String
deriving DecidableEq, Repr

/-- Rust `str::splitn(2, sep)`: the segment before the first `sep` and the
remainder after it; a string without `sep` yields a single segment. -/
def splitn2 (sep : Char) (s : List Char) : List (List Char) :=
  if s.contains sep then
    [s.takeWhile (fun c => !(c == sep)),
     (s.dropWhile (fun c => !(c == sep))).tail]
  else [s]

/-- Mirror of the tail of `basic_authentication`: the split of the decoded
credential string on the first ':' and the two `.next()` calls.  The
earlier steps (header lookup, UTF-8 check, scheme check, base64 decode)
are external collaborators and are not modelled; `decoded` is their
successful output. -/
def credentials_from_decoded (decoded : List Char) : Except String Credentials :=
  let credentials := splitn2 ':' decoded
  match credentials.head? with
  | none => .error "A username must be provided in 'Basic' auth."
  | some username =>
    match credentials.tail.head? with
    | none => .error "A password must be provided in 'Basic' auth."
    | some password => .ok ⟨String.mk username, String.mk password⟩

/-- C9: the split always yields a (possibly empty) username segment, so
the missing-username error is unreachable; without any ':' the only error
is the missing-password one; a leading ':' gives an accepted empty
username. -/
theorem basic_auth_username_branch_unreachable (decoded : List Char) :
    credentials_from_decoded decoded ≠
      .error "A username must be provided in 'Basic' auth." ∧
    (decoded.contains ':' = false →
      credentials_from_decoded decoded =
        .error "A password must be provided in 'Basic' auth.") ∧
    (∀ rest, decoded = ':' :: rest →
      credentials_from_decoded decoded = .ok ⟨"", String.mk rest⟩) := by
  refine ⟨?_, ?_, ?_⟩
  · by_cases hc : ':' ∈ decoded <;>
      simp [credentials_from_decoded, splitn2, hc]
  · intro hc
    have hc' : ¬ (':' ∈ decoded) := by simpa using hc
    simp [credentials_from_decoded, splitn2, hc']
  · intro rest hrest
    subst hrest
    simp [credentials_from_decoded, splitn2]

/-- Witness for the C9 theorem at the concrete decoded strings
`user` (no colon) and `:pw` (empty username). -/
theorem basic_auth_username_branch_unreachable_witness :
    credentials_from_decoded ['u', 's', 'e', 'r'] =
      .error "A password must be provided in 'Basic' auth." ∧
    credentials_from_decoded [':', 'p', 'w'] = .ok ⟨"", "pw"⟩ ∧
    credentials_from_decoded [] ≠
      .error "A username must be provided in 'Basic' auth." := by
  refine ⟨?_, ?_, ?_⟩
  · exact (basic_auth_username_branch_unreachable
      ['u', 's', 'e', 'r']).2.1 (by decide)
  · exact (basic_auth_username_branch_unreachable
      [':', 'p', 'w']).2.2 ['p', 'w'] rfl
  · exact (basic_auth_username_branch_unreachable []).1

/- ------------------------------------------------------------------ -/
/- Credential verification (src/routes/newsletters.rs)                 -/
/- ------------------------------------------------------------------ -/

/-- Mirror of `PublishError`; the payload keeps the wrapped message. -/
inductive PublishError where
  | AuthError (msg : String)
  | UnexpectedError (msg : String)
deriving DecidableEq, Repr

/-- Mirror of `ResponseError::status_code` for `PublishError`. -/
def PublishError.status_code : PublishError → Nat
  | .AuthError _ => 401
  | .UnexpectedError _ => 500

/-- Mirror of `ResponseError::error_response` for `PublishError`: the caller-visible
status code and headers.  The wrapped message is not part of it. -/
def PublishError.error_response : PublishError → Nat × List (String × String)
  | .AuthError _ => (401, [("WWW-Authenticate", "Basic realm=\"publish\"")])
  | .UnexpectedError _ => (500, [])

/-- A row of the users table. -/
structure UserRow where
  user_id : Nat
  username : String
  password_hash : String
deriving DecidableEq, Repr

/-- The fixed pre-computed dummy PHC hash of `validate_credentials`. -/
def dummy_password_hash : String :=
  "$argon2id$v=19$m=15000,t=2,p=1$gZiV/M1gPc22ElAH/Jh1Hw$CWOrkoo7oJBQ/iyh7uJ0LO2aLEfrHwTWllSAxT0zRno"

/-- Mirror of `get_stored_credentials` (the sqlx query modelled as a
lookup in the users list). -/
def get_stored_credentials (users : List UserRow) (username : String) :
    Option (Nat × String) :=
  (users.find? (fun u => u.username == username)).map
    (fun u => (u.user_id, u.password_hash))

/-- Mirror of `verify_password_hash`; `phcOk` abstracts
`PasswordHash::new` succeeding and `ver` abstracts
`Argon2::verify_password`. -/
def verify_password_hash (phcOk : String → Bool) (ver : String → String → Bool)
    (expected_password_hash password_candidate : String) :
    Except PublishError Unit :=
  if phcOk expected_password_hash then
    if ver expected_password_hash password_candidate then .ok ()
    else .error (.AuthError "Invalid password.")
  else .error (.UnexpectedError "Failed to parse hash in PHC string format.")

/-- Mirror of `validate_credentials`.  The second component of the result
records the (hash, candidate) pair the verification computation ran on, so
theorems can state that it always runs. -/
def validate_credentials (phcOk : String → Bool) (ver : String → String → Bool)
    (users : List UserRow) (credentials : Credentials) :
    Except PublishError Nat × List (String × String) :=
  let looked :=
    match get_stored_credentials users credentials.username with
    | some (u, p) => (some u, p)
    | none => (none, dummy_password_hash)
  let user_id := looked.1
  let expected_password_hash := looked.2
  match verify_password_hash phcOk ver expected_password_hash
      credentials.password with
  | .error e => (.error e, [(expected_password_hash, credentials.password)])
  | .ok _ =>
    match user_id with
    | some u => (.ok u, [(expected_password_hash, credentials.password)])
    | none =>
      (.error (.AuthError "Unknown username."),
        [(expected_password_hash, credentials.password)])

/-- C2: an unknown username and a wrong password both produce an
`AuthError`, with identical caller-visible responses, and the
hash-verification computation runs in both cases — against the fixed
dummy hash when the username is absent. -/
theorem validate_credentials_uniform_failure
    (phcOk : String → Bool) (ver : String → String → Bool)
    (users : List UserRow) (cAbsent cWrong : Credentials)
    (habs : get_stored_credentials users cAbsent.username = none)
    (hdummy : phcOk dummy_password_hash = true)
    (uid : Nat) (hash : String)
    (hfound : get_stored_credentials users cWrong.username = some (uid, hash))
    (hph : phcOk hash = true) (hver : ver hash cWrong.password = false) :
    (∃ mA, (validate_credentials phcOk ver users cAbsent).1 =
      .error (.AuthError mA)) ∧
    (validate_credentials phcOk ver users cWrong).1 =
      .error (.AuthError "Invalid password.") ∧
    (∀ eA eW, (validate_credentials phcOk ver users cAbsent).1 = .error eA →
      (validate_credentials phcOk ver users cWrong).1 = .error eW →
      eA.error_response = eW.error_response) ∧
    (validate_credentials phcOk ver users cAbsent).2 =
      [(dummy_password_hash, cAbsent.password)] ∧
    (validate_credentials phcOk ver users cWrong).2 =
      [(hash, cWrong.password)] := by
  have hwrong :
      validate_credentials phcOk ver users cWrong =
        (.error (.AuthError "Invalid password."), [(hash, cWrong.password)]) := by
    simp [validate_credentials, hfound, verify_password_hash, hph, hver]
  cases hdv : ver dummy_password_hash cAbsent.password with
  | true =>
    have habsval :
        validate_credentials phcOk ver users cAbsent =
          (.error (.AuthError "Unknown username."),
            [(dummy_password_hash, cAbsent.password)]) := by
      simp [validate_credentials, habs, verify_password_hash, hdummy, hdv]
    refine ⟨⟨"Unknown username.", by rw [habsval]⟩, by rw [hwrong], ?_, by rw [habsval], by rw [hwrong]⟩
    intro eA eW hA hW
    rw [habsval] at hA
    rw [hwrong] at hW
    cases hA
    cases hW
    rfl
  | false =>
    have habsval :
        validate_credentials phcOk ver users cAbsent =
          (.error (.AuthError "Invalid password."),
            [(dummy_password_hash, cAbsent.password)]) := by
      simp [validate_credentials, habs, verify_password_hash, hdummy, hdv]
    refine ⟨⟨"Invalid password.", by rw [habsval]⟩, by rw [hwrong], ?_, by rw [habsval], by rw [hwrong]⟩
    intro eA eW hA hW
    rw [habsval] at hA
    rw [hwrong] at hW
    cases hA
    cases hW
    rfl

/-- Witness for the C2 theorem: one stored operator, an unknown username
and the operator's name with a wrong password, under a verifier that
always fails. -/
theorem validate_credentials_uniform_failure_witness :
    (∃ mA, (validate_credentials (fun _ => true) (fun _ _ => false)
      [⟨7, "op", "h"⟩] ⟨"ghost", "pw"⟩).1 = .error (.AuthError mA)) ∧
    (validate_credentials (fun _ => true) (fun _ _ => false)
      [⟨7, "op", "h"⟩] ⟨"op", "bad"⟩).1 =
      .error (.AuthError "Invalid password.") := by
  have h := validate_credentials_uniform_failure (fun _ => true)
    (fun _ _ => false) [⟨7, "op", "h"⟩] ⟨"ghost", "pw"⟩ ⟨"op", "bad"⟩
    rfl rfl 7 "h" rfl rfl rfl
  exact ⟨h.1, h.2.1⟩

/- ------------------------------------------------------------------ -/
/- Broadcast workflow (src/routes/newsletters.rs)                      -/
/- ------------------------------------------------------------------ -/

/-- Subscriber status as stored in the subscriptions table. -/
inductive Status where
  | pending_confirmation
  | confirmed
deriving DecidableEq, Repr

/-- A row of the subscriptions table. -/
structure SubscriberRow where
  id : Nat
  email : String
  name : String
  status : Status
deriving DecidableEq, Repr

/-- Mirror of `get_confirmed_subscribers`: the SELECT keeps only rows with
status 'confirmed' and each row's stored email is re-parsed through
`SubscriberEmail::parse`, keeping per-row parse failures as errors. -/
def get_confirmed_subscribers (validEmail : String → Bool)
    (subscriptions : List SubscriberRow) : List (Except String String) :=
  (subscriptions.filter (fun r => r.status == Status.confirmed)).map
    (fun r => SubscriberEmail.parse validEmail r.email)

/-- The email of a successfully re-parsed subscriber entry. -/
def ok_email : Except String String → Option String
  | .ok e => some e
  | .error _ => none

/-- The parse failure of a skipped subscriber entry. -/
def err_msg : Except String String → Option String
  | .ok _ => none
  | .error e => some e

/-- The subscriber loop of `publish_newsletter`; `send` abstracts
`EmailClient::send_email`.  The result carries the outcome, the emails
delivered (in order) and the warnings logged for skipped subscribers.
A failed send returns immediately through the `?` operator, as in the
source; a subscriber whose stored email failed to re-parse only logs a
warning and the loop continues. -/
def publish_loop (send : String → Bool) :
    List (Except String String) →
      Except PublishError Unit × List String × List String
  | [] => (.ok (), [], [])
  | .ok email :: rest =>
    if send email then
      let r := publish_loop send rest
      (r.1, email :: r.2.1, r.2.2)
    else
      (.error (.UnexpectedError
        ("Failed to send newsletter issue to " ++ email)), [], [])
  | .error e :: rest =>
    let r := publish_loop send rest
    (r.1, r.2.1, e :: r.2.2)

/-- Mirror of `publish_newsletter` after the header parse: validate the
credentials, load the confirmed subscribers, run the loop. -/
def publish_newsletter (phcOk : String → Bool) (ver : String → String → Bool)
    (validEmail : String → Bool) (send : String → Bool)
    (users : List UserRow) (subscriptions : List SubscriberRow)
    (credentials : Credentials) :
    Except PublishError Unit × List String × List String :=
  match (validate_credentials phcOk ver users credentials).1 with
  | .error e => (.error e, [], [])
  | .ok _ => publish_loop send (get_confirmed_subscribers validEmail subscriptions)

theorem publish_loop_all_ok (send : String → Bool)
    (subs : List (Except String String))
    (hall : ∀ e ∈ subs.filterMap ok_email, send e = true) :
    publish_loop send subs =
      (.ok (), subs.filterMap ok_email, subs.filterMap err_msg) := by
  induction subs with
  | nil => rfl
  | cons a rest ih =>
    have hrest : ∀ x ∈ rest.filterMap ok_email, send x = true := by
      intro x hx
      apply hall x
      cases a <;> simp [ok_email, List.filterMap_cons, hx]
    cases a with
    | ok e =>
      have hse : send e = true := by
        apply hall e
        simp [ok_email, List.filterMap_cons]
      simp [publish_loop, hse, ih hrest, ok_email, err_msg,
        List.filterMap_cons]
    | error w =>
      simp [publish_loop, ih hrest, ok_email, err_msg, List.filterMap_cons]

theorem publish_loop_failure_aborts (send : String → Bool)
    (pre post : List (Except String String)) (email : String)
    (hpre : ∀ e ∈ pre.filterMap ok_email, send e = true)
    (hfail : send email = false) :
    (publish_loop send (pre ++ .ok email :: post)).1 =
      .error (.UnexpectedError
        ("Failed to send newsletter issue to " ++ email)) ∧
    (publish_loop send (pre ++ .ok email :: post)).2.1 =
      pre.filterMap ok_email := by
  induction pre with
  | nil => simp [publish_loop, hfail]
  | cons a t ih =>
    have ht : ∀ e ∈ t.filterMap ok_email, send e = true := by
      intro e he
      apply hpre e
      cases a <;> simp [ok_email, List.filterMap_cons, he]
    have hres := ih ht
    cases a with
    | ok e' =>
      have hse' : send e' = true := by
        apply hpre e'
        simp [ok_email, List.filterMap_cons]
      simp [publish_loop, hse', hres.1, hres.2, ok_email,
        List.filterMap_cons]
    | error w =>
      simp [publish_loop, hres.1, hres.2, ok_email, List.filterMap_cons]

/-- C1 counterexample: with valid operator credentials, two confirmed
subscribers with valid stored emails and a transport that fails, the
publish outcome is an error rather than OK, and no subscriber after the
failed one is attempted — the failure is not merely logged. -/
theorem publish_delivery_failure_not_ok_cex :
    (publish_newsletter (fun _ => true) (fun _ _ => true) (fun _ => true)
      (fun _ => false) [⟨1, "op", "h"⟩]
      [⟨10, "a@b.com", "A", .confirmed⟩, ⟨11, "c@d.com", "C", .confirmed⟩]
      ⟨"op", "pw"⟩).1 =
      .error (.UnexpectedError "Failed to send newsletter issue to a@b.com") ∧
    (publish_newsletter (fun _ => true) (fun _ _ => true) (fun _ => true)
      (fun _ => false) [⟨1, "op", "h"⟩]
      [⟨10, "a@b.com", "A", .confirmed⟩, ⟨11, "c@d.com", "C", .confirmed⟩]
      ⟨"op", "pw"⟩).1 ≠ .ok () ∧
    (publish_newsletter (fun _ => true) (fun _ _ => true) (fun _ => true)
      (fun _ => false) [⟨1, "op", "h"⟩]
      [⟨10, "a@b.com", "A", .confirmed⟩, ⟨11, "c@d.com", "C", .confirmed⟩]
      ⟨"op", "pw"⟩).2.1 = [] := by
  refine ⟨rfl, ?_, rfl⟩
  intro h
  rw [show (publish_newsletter (fun _ => true) (fun _ _ => true)
      (fun _ => true) (fun _ => false) [⟨1, "op", "h"⟩]
      [⟨10, "a@b.com", "A", .confirmed⟩, ⟨11, "c@d.com", "C", .confirmed⟩]
      ⟨"op", "pw"⟩).1 =
      .error (.UnexpectedError "Failed to send newsletter issue to a@b.com")
    from rfl] at h
  cases h

/-- C1 amended: once authentication succeeds, a failed delivery to a
confirmed subscriber with a valid stored email is propagated — the loop
aborts, later subscribers are not attempted, and the publish outcome is
UnexpectedError rather than OK; the deliveries made are exactly the
earlier valid ones. -/
theorem publish_delivery_failure_fails_request
    (phcOk : String → Bool) (ver : String → String → Bool)
    (validEmail send : String → Bool) (users : List UserRow)
    (subscriptions : List SubscriberRow) (credentials : Credentials)
    (uid : Nat)
    (hauth : (validate_credentials phcOk ver users credentials).1 = .ok uid)
    (pre post : List (Except String String)) (email : String)
    (hsubs : get_confirmed_subscribers validEmail subscriptions =
      pre ++ .ok email :: post)
    (hpre : ∀ e ∈ pre.filterMap ok_email, send e = true)
    (hfail : send email = false) :
    (publish_newsletter phcOk ver validEmail send users subscriptions
      credentials).1 =
      .error (.UnexpectedError
        ("Failed to send newsletter issue to " ++ email)) ∧
    (publish_newsletter phcOk ver validEmail send users subscriptions
      credentials).2.1 = pre.filterMap ok_email := by
  have hloop := publish_loop_failure_aborts send pre post email hpre hfail
  simp [publish_newsletter, hauth, hsubs, hloop.1, hloop.2]

/-- Witness for the amended C1 theorem: the counterexample scenario,
split as an empty prefix and one remaining subscriber. -/
theorem publish_delivery_failure_fails_request_witness :
    (publish_newsletter (fun _ => true) (fun _ _ => true) (fun _ => true)
      (fun _ => false) [⟨1, "op", "h"⟩]
      [⟨10, "a@b.com", "A", .confirmed⟩, ⟨11, "c@d.com", "C", .confirmed⟩]
      ⟨"op", "pw"⟩).1 =
      .error (.UnexpectedError "Failed to send newsletter issue to a@b.com") := by
  have h := publish_delivery_failure_fails_request (fun _ => true)
    (fun _ _ => true) (fun _ => true) (fun _ => false) [⟨1, "op", "h"⟩]
    [⟨10, "a@b.com", "A", .confirmed⟩, ⟨11, "c@d.com", "C", .confirmed⟩]
    ⟨"op", "pw"⟩ 1 rfl [] [.ok "c@d.com"] "a@b.com" rfl
    (by intro e he; cases he) rfl
  exact h.1

theorem filterMap_ok_email_parse (validEmail : String → Bool)
    (rows : List SubscriberRow) :
    (rows.map (fun r => SubscriberEmail.parse validEmail r.email)).filterMap
        ok_email =
      (rows.map (fun r => r.email)).filter validEmail := by
  induction rows with
  | nil => rfl
  | cons r rest ih =>
    rw [List.map_cons, List.filterMap_cons, List.map_cons, List.filter_cons]
    cases hv : validEmail r.email <;>
      simp only [SubscriberEmail.parse, hv, Bool.false_eq_true, if_false,
        if_true, ok_email] at ih ⊢ <;> rw [ih]

theorem filterMap_err_msg_parse (validEmail : String → Bool)
    (rows : List SubscriberRow) :
    (rows.map (fun r => SubscriberEmail.parse validEmail r.email)).filterMap
        err_msg =
      ((rows.map (fun r => r.email)).filter (fun e => !validEmail e)).map
        (fun e => e ++ " is not a valid subscriber email") := by
  induction rows with
  | nil => rfl
  | cons r rest ih =>
    rw [List.map_cons, List.filterMap_cons, List.map_cons, List.filter_cons]
    cases hv : validEmail r.email <;>
      simp only [SubscriberEmail.parse, hv, Bool.false_eq_true, if_false,
        if_true, err_msg, Bool.not_true, Bool.not_false,
        List.map_cons] at ih ⊢ <;> rw [ih]

/-- C8: a broadcast loads exactly the confirmed subscribers (a pending
subscriber is never a recipient), delivers to those whose stored email
re-validates, and skips each invalid one with one warning without failing
the broadcast. -/
theorem broadcast_confirmed_only (validEmail send : String → Bool)
    (subscriptions : List SubscriberRow)
    (hsend : ∀ e, send e = true) :
    (publish_loop send
      (get_confirmed_subscribers validEmail subscriptions)).1 = .ok () ∧
    (publish_loop send
      (get_confirmed_subscribers validEmail subscriptions)).2.1 =
      ((subscriptions.filter (fun r => r.status == Status.confirmed)).map
        (fun r => r.email)).filter validEmail ∧
    (publish_loop send
      (get_confirmed_subscribers validEmail subscriptions)).2.2 =
      (((subscriptions.filter (fun r => r.status == Status.confirmed)).map
        (fun r => r.email)).filter (fun e => !validEmail e)).map
        (fun e => e ++ " is not a valid subscriber email") := by
  have hloop := publish_loop_all_ok send
    (get_confirmed_subscribers validEmail subscriptions)
    (fun e _ => hsend e)
  rw [hloop]
  exact ⟨rfl,
    filterMap_ok_email_parse validEmail
      (subscriptions.filter (fun r => r.status == Status.confirmed)),
    filterMap_err_msg_parse validEmail
      (subscriptions.filter (fun r => r.status == Status.confirmed))⟩

/-- Witness for the C8 theorem: one confirmed subscriber with a valid
email, one with an invalid stored email, one pending subscriber. -/
theorem broadcast_confirmed_only_witness :
    (publish_loop (fun _ => true)
      (get_confirmed_subscribers (fun e => e == "good@x")
        [⟨1, "good@x", "G", .confirmed⟩, ⟨2, "bad", "B", .confirmed⟩,
         ⟨3, "pend@x", "P", .pending_confirmation⟩])).1 = .ok () ∧
    (publish_loop (fun _ => true)
      (get_confirmed_subscribers (fun e => e == "good@x")
        [⟨1, "good@x", "G", .confirmed⟩, ⟨2, "bad", "B", .confirmed⟩,
         ⟨3, "pend@x", "P", .pending_confirmation⟩])).2.1 = ["good@x"] := by
  have h := broadcast_confirmed_only (fun e => e == "good@x") (fun _ => true)
    [⟨1, "good@x", "G", .confirmed⟩, ⟨2, "bad", "B", .confirmed⟩,
     ⟨3, "pend@x", "P", .pending_confirmation⟩] (fun _ => rfl)
  exact ⟨h.1, h.2.1⟩

/- ------------------------------------------------------------------ -/
/- Subscription workflow (src/routes/subscriptions.rs)                 -/
/- ------------------------------------------------------------------ -/

/-- A row of the subscription_tokens table. -/
structure TokenRow where
  subscription_token : String
  subscriber_id : Nat
deriving DecidableEq, Repr

/-- The storage state: the two tables this core writes. -/
structure Db where
  subscriptions : List SubscriberRow
  subscription_tokens : List TokenRow
deriving DecidableEq, Repr

/-- Mirror of `SubscribeError`. -/
inductive SubscribeError where
  | ValidationError (msg : String)
  | UnexpectedError (msg : String)
deriving DecidableEq, Repr

/-- Mirror of `ResponseError::status_code` for `SubscribeError`. -/
def SubscribeError.status_code : SubscribeError → Nat
  | .ValidationError _ => 400
  | .UnexpectedError _ => 500

/-- What `subscribe` did during one call, in order. -/
inductive Event where
  | inserted
  | token_generated
  | token_stored
  | committed
  | email_send_attempted
  | email_sent
deriving DecidableEq, Repr

/-- Success or failure of each external effect of one `subscribe` call:
pool acquisition, the two sqlx statements, the commit and the email
transport. -/
structure Effects where
  begin_ok : Bool
  insert_ok : Bool
  store_ok : Bool
  commit_ok : Bool
  email_ok : Bool
deriving DecidableEq, Repr

/-- Mirror of `insert_subscriber`: the INSERT into subscriptions with
status 'pending_confirmation', acting on the open transaction. -/
def insert_subscriber (tx : Db) (subscriber_id : Nat) (email name : String) :
    Db :=
  { tx with subscriptions :=
      tx.subscriptions ++ [⟨subscriber_id, email, name, .pending_confirmation⟩] }

/-- Mirror of `store_token`: the INSERT into subscription_tokens, acting
on the open transaction. -/
def store_token (tx : Db) (subscriber_id : Nat) (subscription_token : String) :
    Db :=
  { tx with subscription_tokens :=
      tx.subscription_tokens ++ [⟨subscription_token, subscriber_id⟩] }

/-- Mirror of `subscribe`.  `fx` abstracts the success of each external
effect; `subscriber_id` abstracts `Uuid::new_v4` and `token` abstracts
`generate_subcription_token`.  The returned `Db` is the durable state
after the call — a transaction dropped before commit rolls back, so every
failure before the commit returns the original `db`.  The event list
records what the call did, in order. -/
def subscribe (g : List Char → Nat) (validEmail : String → Bool)
    (fx : Effects) (db : Db) (subscriber_id : Nat) (token : String)
    (name : List Char) (email : String) :
    Except SubscribeError Unit × Db × List Event :=
  match NewSubscriber.try_from g validEmail name email with
  | .error msg => (.error (.ValidationError msg), db, [])
  | .ok new_subscriber =>
    if fx.begin_ok then
      if fx.insert_ok then
        let tx := insert_subscriber db subscriber_id new_subscriber.2
          (String.mk new_subscriber.1)
        if fx.store_ok then
          let tx := store_token tx subscriber_id token
          if fx.commit_ok then
            if fx.email_ok then
              (.ok (), tx,
                [.inserted, .token_generated, .token_stored, .committed,
                 .email_send_attempted, .email_sent])
            else
              (.error (.UnexpectedError "Failed to send a confirmation email."),
                tx,
                [.inserted, .token_generated, .token_stored, .committed,
                 .email_send_attempted])
          else
            (.error (.UnexpectedError
              "Failed to commit SQL transaction to store a new subscriber."),
              db, [.inserted, .token_generated, .token_stored])
        else
          (.error (.UnexpectedError
            "Failed to store the confirmation token for a new subscriber."),
            db, [.inserted, .token_generated])
      else
        (.error (.UnexpectedError
          "Failed to insert new subscriber in the database."), db, [])
    else
      (.error (.UnexpectedError
        "Failed to acquire a Postgres connection from the pool"), db, [])

/-- C3: in every execution of `subscribe`, the token is generated and
stored only after the subscriber row was inserted in the same transaction,
and the confirmation email send is attempted only after the commit — no
execution attempts the email before commit. -/
theorem subscribe_ordering (g : List Char → Nat) (validEmail : String → Bool)
    (fx : Effects) (db : Db) (subscriber_id : Nat) (token : String)
    (name : List Char) (email : String) (tr : List Event)
    (htr : tr =
      (subscribe g validEmail fx db subscriber_id token name email).2.2) :
    (Event.token_generated ∈ tr → Event.inserted ∈ tr ∧
      tr.indexOf Event.inserted < tr.indexOf Event.token_generated) ∧
    (Event.token_stored ∈ tr → Event.inserted ∈ tr ∧
      tr.indexOf Event.inserted < tr.indexOf Event.token_stored) ∧
    (Event.email_send_attempted ∈ tr → Event.committed ∈ tr ∧
      tr.indexOf Event.committed < tr.indexOf Event.email_send_attempted) := by
  subst htr
  obtain ⟨b1, b2, b3, b4, b5⟩ := fx
  cases htf : NewSubscriber.try_from g validEmail name email with
  | error m =>
    simp [subscribe, htf]
  | ok ns =>
    cases b1 <;> cases b2 <;> cases b3 <;> cases b4 <;> cases b5 <;>
      simp [subscribe, htf]

/-- Witness for the C3 theorem at a fully successful concrete call. -/
theorem subscribe_ordering_witness :
    Event.inserted ∈ ([.inserted, .token_generated, .token_stored,
      .committed, .email_send_attempted, .email_sent] : List Event) ∧
    ([.inserted, .token_generated, .token_stored, .committed,
      .email_send_attempted, .email_sent] : List Event).indexOf
        Event.inserted <
      ([.inserted, .token_generated, .token_stored, .committed,
        .email_send_attempted, .email_sent] : List Event).indexOf
        Event.token_stored := by
  have h := subscribe_ordering List.length (fun _ => true)
    ⟨true, true, true, true, true⟩ ⟨[], []⟩ 1 "tok" ['a'] "a@b"
    [.inserted, .token_generated, .token_stored, .committed,
     .email_send_attempted, .email_sent] rfl
  exact h.2.1 (by decide)

/-- C4: if the transaction commits and the confirmation email send then
fails, `subscribe` returns UnexpectedError to the caller while the
pending_confirmation subscriber row and its token are persisted. -/
theorem subscribe_email_failure_after_commit (g : List Char → Nat)
    (validEmail : String → Bool) (fx : Effects) (db : Db)
    (subscriber_id : Nat) (token : String) (name : List Char)
    (email : String) (ns : List Char × String)
    (hparse : NewSubscriber.try_from g validEmail name email = .ok ns)
    (hb : fx.begin_ok = true) (hi : fx.insert_ok = true)
    (hs : fx.store_ok = true) (hc : fx.commit_ok = true)
    (he : fx.email_ok = false) :
    (subscribe g validEmail fx db subscriber_id token name email).1 =
      .error (.UnexpectedError "Failed to send a confirmation email.") ∧
    (⟨subscriber_id, ns.2, String.mk ns.1, .pending_confirmation⟩ :
      SubscriberRow) ∈
      (subscribe g validEmail fx db subscriber_id token name
        email).2.1.subscriptions ∧
    (⟨token, subscriber_id⟩ : TokenRow) ∈
      (subscribe g validEmail fx db subscriber_id token name
        email).2.1.subscription_tokens := by
  simp [subscribe, hparse, hb, hi, hs, hc, he, insert_subscriber, store_token]

/-- Witness for the C4 theorem at a concrete call whose email send
fails. -/
theorem subscribe_email_failure_after_commit_witness :
    (subscribe List.length (fun _ => true) ⟨true, true, true, true, false⟩
      ⟨[], []⟩ 5 "tok" ['a'] "a@b").1 =
      .error (.UnexpectedError "Failed to send a confirmation email.") :=
  (subscribe_email_failure_after_commit List.length (fun _ => true)
    ⟨true, true, true, true, false⟩ ⟨[], []⟩ 5 "tok" ['a'] "a@b"
    (['a'], "a@b") rfl rfl rfl rfl rfl rfl).1

/- ------------------------------------------------------------------ -/
/- Confirmation workflow (src/routes/subscriptions_confirm.rs)         -/
/- ------------------------------------------------------------------ -/

/-- Mirror of `get_subscriber_id_from_token`: the SELECT on the token
table; `query_ok` abstracts a sqlx failure. -/
def get_subscriber_id_from_token (query_ok : Bool) (db : Db)
    (subscription_token : String) : Except String (Option Nat) :=
  if query_ok then
    .ok ((db.subscription_tokens.find?
      (fun t => t.subscription_token == subscription_token)).map
      (fun t => t.subscriber_id))
  else .error "failed to execute query"

/-- Mirror of `confirm_subscriber`: the UPDATE sets every matching row to
confirmed and the affected row count is discarded, so the call succeeds
even when no row matches; `update_ok` abstracts a sqlx failure. -/
def confirm_subscriber (update_ok : Bool) (db : Db) (subscriber_id : Nat) :
    Except String Db :=
  if update_ok then
    .ok { db with subscriptions := db.subscriptions.map (fun r =>
      if r.id == subscriber_id then { r with status := .confirmed } else r) }
  else .error "Failed to execute query"

/-- Mirror of the `confirm` handler: HTTP status plus resulting storage
state. -/
def confirm (query_ok update_ok : Bool) (db : Db)
    (subscription_token : String) : Nat × Db :=
  match get_subscriber_id_from_token query_ok db subscription_token with
  | .ok (some subscriber_id) =>
    match confirm_subscriber update_ok db subscriber_id with
    | .ok db2 => (200, db2)
    | .error _ => (500, db)
  | .ok none => (401, db)
  | .error _ => (500, db)

theorem map_id_of_mem {α : Type} (l : List α) (f : α → α)
    (h : ∀ x ∈ l, f x = x) : l.map f = l := by
  induction l with
  | nil => rfl
  | cons a t ih =>
    rw [List.map_cons, h a (List.mem_cons_self a t),
      ih (fun x hx => h x (List.mem_cons_of_mem a hx))]

/-- C7: confirming a subscriber who is already confirmed, through a valid
token, succeeds with the 200 outcome and leaves the storage state — and
in particular the confirmed status — unchanged. -/
theorem confirm_idempotent (db : Db) (token : String) (id : Nat)
    (htoken : get_subscriber_id_from_token true db token = .ok (some id))
    (hconf : ∀ r ∈ db.subscriptions, r.id = id →
      r.status = Status.confirmed) :
    confirm true true db token = (200, db) := by
  have hmap : db.subscriptions.map (fun r =>
      if r.id = id then { r with status := Status.confirmed } else r) =
      db.subscriptions := by
    apply map_id_of_mem
    intro r hr
    by_cases hid : r.id = id
    · have hst := hconf r hr hid
      obtain ⟨i, e, n, st⟩ := r
      simp only at hst hid
      subst hst hid
      simp
    · simp [hid]
  simp [confirm, htoken, confirm_subscriber, hmap]

/-- Witness for the C7 theorem: one already-confirmed subscriber and its
token. -/
theorem confirm_idempotent_witness :
    confirm true true
      ⟨[⟨1, "e@x", "E", .confirmed⟩], [⟨"tok", 1⟩]⟩ "tok" =
      (200, ⟨[⟨1, "e@x", "E", .confirmed⟩], [⟨"tok", 1⟩]⟩) :=
  confirm_idempotent ⟨[⟨1, "e@x", "E", .confirmed⟩], [⟨"tok", 1⟩]⟩ "tok" 1
    rfl (by decide)

/-- C10: `confirm_subscriber` treats an UPDATE matching zero rows as
success, so a token that resolves to a subscriber id with no subscriber
row still yields the 200 outcome (and an unchanged state), not an
error. -/
theorem confirm_zero_rows_success (db : Db) (token : String) (id : Nat)
    (htoken : get_subscriber_id_from_token true db token = .ok (some id))
    (hnone : ∀ r ∈ db.subscriptions, r.id ≠ id) :
    confirm true true db token = (200, db) := by
  have hmap : db.subscriptions.map (fun r =>
      if r.id = id then { r with status := Status.confirmed } else r) =
      db.subscriptions := by
    apply map_id_of_mem
    intro r hr
    simp [hnone r hr]
  simp [confirm, htoken, confirm_subscriber, hmap]

/-- Witness for the C10 theorem: a token mapped to subscriber id 1 while
the subscriptions table only holds id 2. -/
theorem confirm_zero_rows_success_witness :
    confirm true true
      ⟨[⟨2, "e@x", "E", .pending_confirmation⟩], [⟨"tok", 1⟩]⟩ "tok" =
      (200, ⟨[⟨2, "e@x", "E", .pending_confirmation⟩], [⟨"tok", 1⟩]⟩) :=
  confirm_zero_rows_success
    ⟨[⟨2, "e@x", "E", .pending_confirmation⟩], [⟨"tok", 1⟩]⟩ "tok" 1
    rfl (by decide)

end Newsletter
